import Mathlib

/-
Shallow embedding of the k8s-setup provisioning tool (main.go and its
package copies in pkg/ssh, pkg/kubernetes, pkg/backup).

The remote side (SSH dial, command execution) and the local filesystem
(status-file writes, the Prometheus values file) are modelled as oracles
supplied in an environment record; the orchestration logic — the per-host
loop body of main, the five phase functions, connectSSH — is translated
function by function from the Go source.  Machine-level details that no
claim depends on (the 2-second sleep between cluster-install commands,
JSON marshalling of the status record) are elided; the status-file write
outcome is kept as a boolean oracle because saveStatus's error result is
part of the claims.
-/

/-- Result of one remote command execution as seen by executeCommand:
either success with captured output, a session-creation error, or a
command failure with captured combined output and an error message. -/
inductive ExecResult where
  | ok (output : String)
  | sessionErr (msg : String)
  | cmdErr (output : String) (msg : String)
deriving DecidableEq

/-- Application configuration (struct Config in main.go), flattened. -/
structure Config where
  username : String
  password : String
  keyFile : String
  timeout : Nat
  version : String
  podCIDR : String
  serviceCIDR : String
  retentionTime : String
  storageClass : String
  adminPassword : String
  domain : String
  cpu : String
  memory : String

/-- Per-VM connection parameters (struct VMConfig in main.go). -/
structure VMConfig where
  ip : String
  username : String
  password : String
  keyFile : String
  timeout : Nat

/-- Per-host progress record (struct SetupStatus in main.go).  Times are
naturals; 0 stands for Go's zero time value. -/
structure SetupStatus where
  vmIP : String
  startTime : Nat
  endTime : Nat
  currentStep : String
  status : String
  error : String
  completedSteps : List String
deriving DecidableEq

/-- Command battery of checkSystemRequirements. -/
def requirementCommands : List String :=
  ["uname -a", "free -h", "df -h", "nproc", "cat /etc/os-release"]

/-- Ordered command list of setupKubernetes, rendered from the
configuration exactly as the Go source does. -/
def kubernetesCommands (cfg : Config) : List String :=
  [ "apt-get update && apt-get upgrade -y",
    "apt-get install -y apt-transport-https ca-certificates curl software-properties-common",
    "curl -fsSL https://download.docker.com/linux/ubuntu/gpg | apt-key add -",
    "add-apt-repository \"deb [arch=amd64] https://download.docker.com/linux/ubuntu $(lsb_release -cs) stable\"",
    "apt-get update && apt-get install -y docker-ce docker-ce-cli containerd.io",
    "mkdir -p /etc/docker",
    "cat > /etc/docker/daemon.json << EOF\n\x7b\n  \"exec-opts\": [\"native.cgroupdriver=systemd\"],\n  \"log-driver\": \"json-file\",\n  \"log-opts\": \x7b\n    \"max-size\": \"100m\"\n  \x7d,\n  \"storage-driver\": \"overlay2\"\n\x7d\nEOF",
    "systemctl daemon-reload",
    "systemctl restart docker",
    "curl -s https://packages.cloud.google.com/apt/doc/apt-key.gpg | apt-key add -",
    "echo \"deb https://apt.kubernetes.io/ kubernetes-xenial main\" > /etc/apt/sources.list.d/kubernetes.list",
    "apt-get update && apt-get install -y kubelet=" ++ cfg.version ++ " kubeadm=" ++ cfg.version ++ " kubectl=" ++ cfg.version,
    "kubeadm init --pod-network-cidr=" ++ cfg.podCIDR ++ " --service-cidr=" ++ cfg.serviceCIDR,
    "mkdir -p $HOME/.kube && cp -i /etc/kubernetes/admin.conf $HOME/.kube/config && chown $(id -u):$(id -g) $HOME/.kube/config",
    "kubectl apply -f https://docs.projectcalico.org/manifests/calico.yaml" ]

/-- Helm bootstrap commands of setupMonitoring. -/
def helmCommands : List String :=
  [ "curl https://raw.githubusercontent.com/helm/helm/master/scripts/get-helm-3 | bash",
    "helm repo add prometheus-community https://prometheus-community.github.io/helm-charts",
    "helm repo update" ]

/-- Prometheus values document rendered by setupMonitoring. -/
def prometheusValues (cfg : Config) : String :=
  "\nprometheus:\n  prometheusSpec:\n    retention: " ++ cfg.retentionTime ++
  "\n    storageSpec:\n      volumeClaimTemplate:\n        spec:\n          storageClassName: " ++ cfg.storageClass ++
  "\n          accessModes: [\"ReadWriteOnce\"]\n          resources:\n            requests:\n              storage: 10Gi\n"

/-- Chart install command of setupMonitoring. -/
def installPrometheusCmd : String :=
  "helm install prometheus prometheus-community/kube-prometheus-stack -f prometheus-values.yaml --namespace monitoring"

/-- Grafana credential commands of setupMonitoring. -/
def grafanaCommands (cfg : Config) : List String :=
  [ "kubectl create secret generic grafana-admin --from-literal=admin-password=" ++ cfg.adminPassword ++ " -n monitoring",
    "kubectl patch deployment prometheus-grafana -n monitoring --type=json -p=\x27[\x7b\"op\": \"add\", \"path\": \"/spec/template/spec/containers/0/env/0\", \"value\": \x7b\"name\": \"GF_SECURITY_ADMIN_PASSWORD\", \"valueFrom\": \x7b\"secretKeyRef\": \x7b\"name\": \"grafana-admin\", \"key\": \"admin-password\"\x7d\x7d\x7d\x7d]\x27" ]

/-- Readiness wait commands of setupMonitoring. -/
def waitCommands : List String :=
  [ "kubectl wait --for=condition=ready pod -l app.kubernetes.io/name=prometheus -n monitoring --timeout=300s",
    "kubectl wait --for=condition=ready pod -l app.kubernetes.io/name=grafana -n monitoring --timeout=300s" ]

/-- Command battery of verifySetup. -/
def verifyCommands : List String :=
  ["kubectl get nodes", "kubectl get pods -A", "kubectl get services -A", "kubectl get deployments -A"]

/-- Command list of createBackup (backupDir is /root/k8s-backup). -/
def backupCommands : List String :=
  [ "mkdir -p /root/k8s-backup",
    "kubectl get all -A -o yaml > /root/k8s-backup/all-resources.yaml",
    "kubectl get configmaps -A -o yaml > /root/k8s-backup/configmaps.yaml",
    "kubectl get secrets -A -o yaml > /root/k8s-backup/secrets.yaml",
    "tar -czf /root/k8s-backup/k8s-backup.tar.gz /root/k8s-backup" ]

/-- executeCommand from main.go: returns (captured output, optional error
message).  A session-creation error is returned as-is with empty output;
a command failure is wrapped with the prefix the Go code adds. -/
def executeCommand (exec : String → ExecResult) (cmd : String) : String × Option String :=
  match exec cmd with
  | ExecResult.ok out => (out, none)
  | ExecResult.sessionErr e => ("", some e)
  | ExecResult.cmdErr out e => (out, some ("command failed: " ++ e))

/-- Loop body of checkSystemRequirements: first command failure aborts. -/
def checkLoop (exec : String → ExecResult) : List String → Except String Unit
  | [] => Except.ok ()
  | cmd :: rest =>
    match executeCommand exec cmd with
    | (_, some e) => Except.error ("system check failed: " ++ e)
    | (_, none) => checkLoop exec rest

/-- checkSystemRequirements from main.go (outcome only; its log lines are
collected by checkLogs below, mirroring the log.Printf in the same loop). -/
def checkSystemRequirements (exec : String → ExecResult) : Except String Unit :=
  checkLoop exec requirementCommands

/-- Log lines emitted by checkSystemRequirements for the commands that ran
successfully (the Go loop logs after the error check, so a failing command
logs nothing). -/
def checkLogsLoop (exec : String → ExecResult) : List String → List String
  | [] => []
  | cmd :: rest =>
    match executeCommand exec cmd with
    | (_, some _) => []
    | (out, none) => ("System check output for " ++ cmd ++ ":\n" ++ out) :: checkLogsLoop exec rest

/-- Log output of the requirement-check phase. -/
def checkLogs (exec : String → ExecResult) : List String :=
  checkLogsLoop exec requirementCommands

/-- Loop body of setupKubernetes: first failure aborts with an error
naming the failing command and its captured output. -/
def kubernetesLoop (exec : String → ExecResult) : List String → Except String Unit
  | [] => Except.ok ()
  | cmd :: rest =>
    match executeCommand exec cmd with
    | (out, some e) => Except.error ("failed to execute command \x27" ++ cmd ++ "\x27: " ++ e ++ "\nOutput: " ++ out)
    | (_, none) => kubernetesLoop exec rest

/-- setupKubernetes from main.go. -/
def setupKubernetes (exec : String → ExecResult) (cfg : Config) : Except String Unit :=
  kubernetesLoop exec (kubernetesCommands cfg)

/-- One step of setupMonitoring: run a command, wrapping a failure with
the step-specific error prefix. -/
def monitoringStep (exec : String → ExecResult) (errPrefix cmd : String) : Except String Unit :=
  match executeCommand exec cmd with
  | (_, some e) => Except.error (errPrefix ++ e)
  | (_, none) => Except.ok ()

/-- Run a command list with a shared error prefix, aborting on the first
failure, as each of setupMonitoring's inner loops does. -/
def monitoringLoop (exec : String → ExecResult) (errPrefix : String) : List String → Except String Unit
  | [] => Except.ok ()
  | cmd :: rest =>
    match monitoringStep exec errPrefix cmd with
    | Except.error e => Except.error e
    | Except.ok _ => monitoringLoop exec errPrefix rest

/-- setupMonitoring from main.go.  writeValues is the oracle for the local
ioutil.WriteFile of prometheus-values.yaml: it receives the rendered
document and returns none on success or an error message. -/
def setupMonitoring (exec : String → ExecResult) (writeValues : String → Option String) (cfg : Config) : Except String Unit :=
  match monitoringStep exec "failed to create monitoring namespace: " "kubectl create namespace monitoring" with
  | Except.error e => Except.error e
  | Except.ok _ =>
  match monitoringLoop exec "failed to setup Helm: " helmCommands with
  | Except.error e => Except.error e
  | Except.ok _ =>
  match writeValues (prometheusValues cfg) with
  | some e => Except.error ("failed to create Prometheus values file: " ++ e)
  | none =>
  match monitoringStep exec "failed to install Prometheus stack: " installPrometheusCmd with
  | Except.error e => Except.error e
  | Except.ok _ =>
  match monitoringLoop exec "failed to configure Grafana: " (grafanaCommands cfg) with
  | Except.error e => Except.error e
  | Except.ok _ =>
  monitoringLoop exec "failed to wait for pods: " waitCommands

/-- Loop body of verifySetup. -/
def verifyLoop (exec : String → ExecResult) : List String → Except String Unit
  | [] => Except.ok ()
  | cmd :: rest =>
    match executeCommand exec cmd with
    | (_, some e) => Except.error ("verification failed for command \x27" ++ cmd ++ "\x27: " ++ e)
    | (_, none) => verifyLoop exec rest

/-- verifySetup from main.go. -/
def verifySetup (exec : String → ExecResult) : Except String Unit :=
  verifyLoop exec verifyCommands

/-- Log lines emitted by verifySetup for the commands that succeeded. -/
def verifyLogsLoop (exec : String → ExecResult) : List String → List String
  | [] => []
  | cmd :: rest =>
    match executeCommand exec cmd with
    | (_, some _) => []
    | (out, none) => ("Verification output for " ++ cmd ++ ":\n" ++ out) :: verifyLogsLoop exec rest

/-- Log output of the verification phase. -/
def verifyLogs (exec : String → ExecResult) : List String :=
  verifyLogsLoop exec verifyCommands

/-- Loop body of createBackup. -/
def backupLoop (exec : String → ExecResult) : List String → Except String Unit
  | [] => Except.ok ()
  | cmd :: rest =>
    match executeCommand exec cmd with
    | (_, some e) => Except.error ("backup failed: " ++ e)
    | (_, none) => backupLoop exec rest

/-- createBackup from main.go. -/
def createBackup (exec : String → ExecResult) : Except String Unit :=
  backupLoop exec backupCommands

/-- Per-host environment: outcomes of the external collaborators for one
host's run — the SSH dial, the remote command executor, the local write of
the Prometheus values file, and the status-file write (saveStatus's
ioutil.WriteFile), whose success bit is recorded because the Go call sites
discard saveStatus's returned error. -/
structure HostEnv where
  connect : Except String Unit
  exec : String → ExecResult
  writeValues : String → Option String
  saveOk : Bool

/-- Observable outcome of one host's run: the final in-memory status
record, the sequence of save attempts (snapshot saved, write success),
the console log lines, and whether an SSH connection was opened (and
hence a Close deferred). -/
structure HostRun where
  finalStatus : SetupStatus
  saves : List (SetupStatus × Bool)
  logs : List String
  connected : Bool
deriving DecidableEq

/-- Status record as constructed at the top of main's per-host loop:
state In Progress, current step Initializing, zero end time. -/
def initialStatus (ip : String) (t0 : Nat) : SetupStatus :=
  { vmIP := ip, startTime := t0, endTime := 0, currentStep := "Initializing",
    status := "In Progress", error := "", completedSteps := [] }

/-- The per-host loop body of main, translated clause by clause: connect;
requirement check; Kubernetes setup; monitoring setup; verification;
backup (non-fatal); terminal Completed save.  Each failure of a fatal
stage sets status Failed and the stage's error prefix, saves once, and
ends the host's run (the Go continue).  t0 is the loop-entry time and
tEnd the time taken at the terminal Completed assignment; no failure path
touches endTime, exactly as in the source. -/
def processVM (cfg : Config) (env : HostEnv) (ip : String) (t0 tEnd : Nat) : HostRun :=
  let st0 := initialStatus ip t0
  let startLog := "Starting setup for VM " ++ ip
  match env.connect with
  | Except.error e =>
      let st := { st0 with status := "Failed", error := "SSH connection failed: " ++ e }
      { finalStatus := st, saves := [(st, env.saveOk)], logs := [startLog], connected := false }
  | Except.ok _ =>
      match checkSystemRequirements env.exec with
      | Except.error e =>
          let st := { st0 with status := "Failed", error := "System requirements check failed: " ++ e }
          { finalStatus := st, saves := [(st, env.saveOk)],
            logs := [startLog] ++ checkLogs env.exec, connected := true }
      | Except.ok _ =>
          let st1 := { st0 with currentStep := "Setting up Kubernetes" }
          match setupKubernetes env.exec cfg with
          | Except.error e =>
              let st := { st1 with status := "Failed", error := "Kubernetes setup failed: " ++ e }
              { finalStatus := st, saves := [(st, env.saveOk)],
                logs := [startLog] ++ checkLogs env.exec, connected := true }
          | Except.ok _ =>
              let st2 := { st1 with completedSteps := st1.completedSteps ++ ["kubernetes"],
                                    currentStep := "Setting up monitoring" }
              match setupMonitoring env.exec env.writeValues cfg with
              | Except.error e =>
                  let st := { st2 with status := "Failed", error := "Monitoring setup failed: " ++ e }
                  { finalStatus := st, saves := [(st, env.saveOk)],
                    logs := [startLog] ++ checkLogs env.exec, connected := true }
              | Except.ok _ =>
                  let st3 := { st2 with completedSteps := st2.completedSteps ++ ["monitoring"],
                                        currentStep := "Verifying setup" }
                  match verifySetup env.exec with
                  | Except.error e =>
                      let st := { st3 with status := "Failed", error := "Verification failed: " ++ e }
                      { finalStatus := st, saves := [(st, env.saveOk)],
                        logs := [startLog] ++ checkLogs env.exec ++ verifyLogs env.exec, connected := true }
                  | Except.ok _ =>
                      let st4 := { st3 with completedSteps := st3.completedSteps ++ ["verification"],
                                            currentStep := "Creating backup" }
                      match createBackup env.exec with
                      | Except.error e =>
                          let st5 := { st4 with status := "Completed", endTime := tEnd }
                          { finalStatus := st5, saves := [(st5, env.saveOk)],
                            logs := [startLog] ++ checkLogs env.exec ++ verifyLogs env.exec ++
                              ["Warning: Backup creation failed: " ++ e,
                               "Setup completed successfully for VM " ++ ip],
                            connected := true }
                      | Except.ok _ =>
                          let st4b := { st4 with completedSteps := st4.completedSteps ++ ["backup"] }
                          let st5 := { st4b with status := "Completed", endTime := tEnd }
                          { finalStatus := st5, saves := [(st5, env.saveOk)],
                            logs := [startLog] ++ checkLogs env.exec ++ verifyLogs env.exec ++
                              ["Setup completed successfully for VM " ++ ip],
                            connected := true }

/-- Fleet-level environment: the configuration loader, the outcome of
creating the status directory, the per-host environment, and the clock
readings at each host's loop entry and terminal assignment. -/
structure FleetEnv where
  loadConfig : String → Except String Config
  mkdirStatusOk : Bool
  host : String → HostEnv
  startAt : String → Nat
  endAt : String → Nat

/-- Outcome of a whole invocation of main: a usage fatal (argument count
below two), a configuration-load fatal, a status-directory fatal, or a
run to completion carrying every host's run in list order. -/
inductive MainOutcome where
  | usage : MainOutcome
  | configError (msg : String) : MainOutcome
  | mkdirError : MainOutcome
  | ranToCompletion (runs : List HostRun) : MainOutcome
deriving DecidableEq

/-- main from main.go: the usage check is len(os.Args) < 2 — args here is
the full os.Args including the program name — then configuration load,
status-directory creation, and the loop over os.Args[2:]. -/
def mainRun (fe : FleetEnv) (args : List String) : MainOutcome :=
  if args.length < 2 then MainOutcome.usage
  else
    match fe.loadConfig (args.getD 1 "") with
    | Except.error e => MainOutcome.configError ("Failed to load configuration: " ++ e)
    | Except.ok cfg =>
      if fe.mkdirStatusOk then
        MainOutcome.ranToCompletion
          ((args.drop 2).map (fun ip => processVM cfg (fe.host ip) ip (fe.startAt ip) (fe.endAt ip)))
      else MainOutcome.mkdirError

/-- Process exit status: logger.Fatal exits non-zero; a run to completion
exits zero. -/
def exitCode : MainOutcome → Nat
  | MainOutcome.ranToCompletion _ => 0
  | _ => 1

/-- Number of hosts whose loop body executed. -/
def hostsProcessed : MainOutcome → Nat
  | MainOutcome.ranToCompletion runs => runs.length
  | _ => 0

/-- SSH connections still open at the moment host number k+1 of ips
begins (equivalently, after host k's run has ended).  In the Go source
the per-host Close is registered with defer inside main's loop; defers
run only when main itself returns, so every connection opened for an
earlier host is still open while any later host is processed.  The open
set after k hosts is therefore exactly the successfully connected hosts
among the first k. -/
def openConnections (fe : FleetEnv) (cfg : Config) (ips : List String) (k : Nat) : List String :=
  (ips.take k).filter (fun ip => (processVM cfg (fe.host ip) ip (fe.startAt ip) (fe.endAt ip)).connected)

/-- An SSH authentication method as configured by connectSSH: either the
password method or a public-key method carrying the parsed signer. -/
inductive AuthMethod where
  | password (pw : String)
  | publicKeys (signer : String)
deriving DecidableEq

/-- The ssh.ClientConfig fields connectSSH sets. -/
structure SSHClientConfig where
  user : String
  auth : List AuthMethod
  timeout : Nat
deriving DecidableEq

/-- Oracles for connectSSH's collaborators: the key-file read, the
private-key parse, and the TCP dial outcome. -/
structure SSHEnv where
  readFile : String → Except String String
  parsePrivateKey : String → Except String String
  dialResult : Except String Unit

/-- Result of connectSSH: either a dial was attempted at an address with
a fully built client configuration (carrying the dial's outcome), or the
function returned an error before any network activity. -/
inductive ConnectResult where
  | dialed (addr : String) (cfg : SSHClientConfig) (outcome : Except String Unit)
  | noDial (err : String)

/-- connectSSH from main.go (identical to Connect in pkg/ssh up to the
error wrapping of the dial itself): the client config starts with the
password method; a non-empty KeyFile replaces — not supplements — the
auth list with the parsed public key, and a read or parse failure
returns before ssh.Dial is reached. -/
def connectSSH (env : SSHEnv) (config : VMConfig) : ConnectResult :=
  let sshConfig : SSHClientConfig :=
    { user := config.username, auth := [AuthMethod.password config.password], timeout := config.timeout }
  if config.keyFile ≠ "" then
    match env.readFile config.keyFile with
    | Except.error e => ConnectResult.noDial ("failed to read key file: " ++ e)
    | Except.ok key =>
      match env.parsePrivateKey key with
      | Except.error e => ConnectResult.noDial ("failed to parse private key: " ++ e)
      | Except.ok signer =>
        ConnectResult.dialed (config.ip ++ ":22")
          { sshConfig with auth := [AuthMethod.publicKeys signer] } env.dialResult
  else
    ConnectResult.dialed (config.ip ++ ":22") sshConfig env.dialResult

/-- Sample configuration matching the README example. -/
def cfg0 : Config :=
  { username := "root", password := "pw", keyFile := "", timeout := 30,
    version := "1.24.0-00", podCIDR := "10.244.0.0/16", serviceCIDR := "10.96.0.0/12",
    retentionTime := "15d", storageClass := "standard",
    adminPassword := "secret", domain := "grafana.example.com",
    cpu := "2", memory := "4Gi" }

/-- Executor on which every remote command succeeds with empty output. -/
def execAllOk : String → ExecResult := fun _ => ExecResult.ok ""

/-- Host environment on which everything succeeds. -/
def envAllOk : HostEnv :=
  { connect := Except.ok (), exec := execAllOk, writeValues := fun _ => none, saveOk := true }

/-- Host environment whose SSH dial fails. -/
def envConnFail : HostEnv :=
  { envAllOk with connect := Except.error "dial tcp: connection refused" }

/-- Executor on which the first requirement-check command fails. -/
def execChkFails : String → ExecResult := fun cmd =>
  if cmd = "uname -a" then ExecResult.cmdErr "" "exit status 127" else ExecResult.ok ""

/-- Host environment whose requirement check fails at its first command. -/
def envChkFail : HostEnv := { envAllOk with exec := execChkFails }

/-- Executor on which the first cluster-install command fails (the
requirement-check battery does not contain it, so that phase succeeds). -/
def execK8sFails : String → ExecResult := fun cmd =>
  if cmd = "apt-get update && apt-get upgrade -y" then
    ExecResult.cmdErr "E: unable to fetch" "exit status 100"
  else ExecResult.ok ""

/-- Host environment that fails at the first cluster-install command. -/
def envK8sFail : HostEnv := { envAllOk with exec := execK8sFails }

/-- Executor on which only the first backup command fails. -/
def execBackupFails : String → ExecResult := fun cmd =>
  if cmd = "mkdir -p /root/k8s-backup" then ExecResult.cmdErr "" "exit status 1"
  else ExecResult.ok ""

/-- Host environment on which every phase through Verify succeeds and the
backup phase fails. -/
def envBackupFail : HostEnv := { envAllOk with exec := execBackupFails }

/-- Host environment on which everything succeeds except the status-file
write, which fails. -/
def envAllOkSaveFail : HostEnv := { envAllOk with saveOk := false }

/-- Fleet environment whose configuration loads as cfg0, whose status
directory is created, and all of whose hosts succeed fully. -/
def fleet0 : FleetEnv :=
  { loadConfig := fun _ => Except.ok cfg0, mkdirStatusOk := true,
    host := fun _ => envAllOk, startAt := fun _ => 1, endAt := fun _ => 2 }

/-- A string with a non-empty literal prefix is itself non-empty. -/
theorem append_ne_empty (p s : String) (hp : p.data ≠ []) : p ++ s ≠ "" := by
  intro h
  apply hp
  have hd : (p ++ s).data = p.data ++ s.data := by
    cases p
    cases s
    rfl
  rw [h] at hd
  exact (List.append_eq_nil.mp hd.symm).1

/-- C1 (amended): for a host whose connection and all five phases succeed,
the final record's completedSteps is exactly ["kubernetes", "monitoring",
"verification", "backup"] in that order — the requirement-check phase
appends no name of its own — and consequently after a successful
requirement check followed by a cluster-install failure, completedSteps
is empty. -/
theorem c1_completed_steps (cfg : Config) (env : HostEnv) (ip : String) (t0 tEnd : Nat) :
    (env.connect = Except.ok () → checkSystemRequirements env.exec = Except.ok () →
     setupKubernetes env.exec cfg = Except.ok () →
     setupMonitoring env.exec env.writeValues cfg = Except.ok () →
     verifySetup env.exec = Except.ok () → createBackup env.exec = Except.ok () →
     (processVM cfg env ip t0 tEnd).finalStatus.completedSteps =
       ["kubernetes", "monitoring", "verification", "backup"])
    ∧ (env.connect = Except.ok () → checkSystemRequirements env.exec = Except.ok () →
       ∀ e, setupKubernetes env.exec cfg = Except.error e →
       (processVM cfg env ip t0 tEnd).finalStatus.completedSteps = []) := by
  constructor
  · intro hc hk h2 h3 h4 h5
    simp [processVM, initialStatus, hc, hk, h2, h3, h4, h5]
  · intro hc hk e h2
    simp [processVM, initialStatus, hc, hk, h2]

/-- C1 witness: on the all-success environment completedSteps is the four
code-level phase names, and on the cluster-install-failure environment it
is empty. -/
theorem c1_completed_steps_witness :
    (processVM cfg0 envAllOk "10.0.0.1" 1 2).finalStatus.completedSteps =
      ["kubernetes", "monitoring", "verification", "backup"]
    ∧ (processVM cfg0 envK8sFail "10.0.0.1" 1 2).finalStatus.completedSteps = [] :=
  ⟨(c1_completed_steps cfg0 envAllOk "10.0.0.1" 1 2).1 rfl rfl rfl rfl rfl rfl,
   (c1_completed_steps cfg0 envK8sFail "10.0.0.1" 1 2).2 rfl rfl _ rfl⟩

/-- C1 counterexample: the claim predicts five completed-phase names after
a fully successful run (requirement check included) and exactly one name
after a cluster-install failure; the code records four names after full
success and zero names after a cluster-install failure, so the claim is
false under any correspondence of phase names. -/
theorem c1_completed_steps_counterexample :
    (processVM cfg0 envAllOk "10.0.0.2" 1 2).finalStatus.completedSteps.length = 4
    ∧ (processVM cfg0 envK8sFail "10.0.0.2" 1 2).finalStatus.completedSteps.length = 0 :=
  ⟨rfl, rfl⟩

/-- C2 (amended): whenever a host's final record has state Failed, its
error field is non-empty and the record is persisted exactly once as the
terminal save — but its endTime is still the zero value: no failure path
sets endTime. -/
theorem c2_failed_record (cfg : Config) (env : HostEnv) (ip : String) (t0 tEnd : Nat)
    (h : (processVM cfg env ip t0 tEnd).finalStatus.status = "Failed") :
    (processVM cfg env ip t0 tEnd).finalStatus.error ≠ ""
    ∧ (processVM cfg env ip t0 tEnd).finalStatus.endTime = 0
    ∧ (processVM cfg env ip t0 tEnd).saves =
        [((processVM cfg env ip t0 tEnd).finalStatus, env.saveOk)] := by
  cases hc : env.connect with
  | error e =>
    refine ⟨?_, by simp [processVM, initialStatus, hc], by simp [processVM, initialStatus, hc]⟩
    simp only [processVM, initialStatus, hc]
    exact append_ne_empty _ _ (by decide)
  | ok u =>
    cases hk : checkSystemRequirements env.exec with
    | error e =>
      refine ⟨?_, by simp [processVM, initialStatus, hc, hk], by simp [processVM, initialStatus, hc, hk]⟩
      simp only [processVM, initialStatus, hc, hk]
      exact append_ne_empty _ _ (by decide)
    | ok u1 =>
      cases h2 : setupKubernetes env.exec cfg with
      | error e =>
        refine ⟨?_, by simp [processVM, initialStatus, hc, hk, h2], by simp [processVM, initialStatus, hc, hk, h2]⟩
        simp only [processVM, initialStatus, hc, hk, h2]
        exact append_ne_empty _ _ (by decide)
      | ok u2 =>
        cases h3 : setupMonitoring env.exec env.writeValues cfg with
        | error e =>
          refine ⟨?_, by simp [processVM, initialStatus, hc, hk, h2, h3], by simp [processVM, initialStatus, hc, hk, h2, h3]⟩
          simp only [processVM, initialStatus, hc, hk, h2, h3]
          exact append_ne_empty _ _ (by decide)
        | ok u3 =>
          cases h4 : verifySetup env.exec with
          | error e =>
            refine ⟨?_, by simp [processVM, initialStatus, hc, hk, h2, h3, h4],
                    by simp [processVM, initialStatus, hc, hk, h2, h3, h4]⟩
            simp only [processVM, initialStatus, hc, hk, h2, h3, h4]
            exact append_ne_empty _ _ (by decide)
          | ok u4 =>
            cases h5 : createBackup env.exec with
            | error e => simp [processVM, initialStatus, hc, hk, h2, h3, h4, h5] at h
            | ok u5 => simp [processVM, initialStatus, hc, hk, h2, h3, h4, h5] at h

/-- C2 witness: a requirement-check failure yields a Failed record with
non-empty error, zero endTime, and one terminal save. -/
theorem c2_failed_record_witness :
    (processVM cfg0 envChkFail "10.0.0.1" 5 9).finalStatus.error ≠ ""
    ∧ (processVM cfg0 envChkFail "10.0.0.1" 5 9).finalStatus.endTime = 0
    ∧ (processVM cfg0 envChkFail "10.0.0.1" 5 9).saves =
        [((processVM cfg0 envChkFail "10.0.0.1" 5 9).finalStatus, true)] :=
  c2_failed_record cfg0 envChkFail "10.0.0.1" 5 9 rfl

/-- C2 counterexample: on a connection failure the record is persisted
with state Failed while its endTime is still 0 even though the terminal
clock reading (9) is non-zero — the claimed non-zero endTime is absent. -/
theorem c2_endtime_counterexample :
    (processVM cfg0 envConnFail "10.0.0.1" 5 9).finalStatus.status = "Failed"
    ∧ (processVM cfg0 envConnFail "10.0.0.1" 5 9).finalStatus.endTime = 0
    ∧ (processVM cfg0 envConnFail "10.0.0.1" 5 9).saves =
        [((processVM cfg0 envConnFail "10.0.0.1" 5 9).finalStatus, true)] :=
  ⟨rfl, rfl, rfl⟩

/-- C3 (amended): every host run performs exactly one save — the terminal
one, carrying the final record — regardless of where the run ends;
successful phase transitions do not trigger a save. -/
theorem c3_saves_once_terminal (cfg : Config) (env : HostEnv) (ip : String) (t0 tEnd : Nat) :
    (processVM cfg env ip t0 tEnd).saves =
      [((processVM cfg env ip t0 tEnd).finalStatus, env.saveOk)] := by
  cases hc : env.connect with
  | error e => simp [processVM, hc]
  | ok u =>
    cases hk : checkSystemRequirements env.exec with
    | error e => simp [processVM, hc, hk]
    | ok u1 =>
      cases h2 : setupKubernetes env.exec cfg with
      | error e => simp [processVM, hc, hk, h2]
      | ok u2 =>
        cases h3 : setupMonitoring env.exec env.writeValues cfg with
        | error e => simp [processVM, hc, hk, h2, h3]
        | ok u3 =>
          cases h4 : verifySetup env.exec with
          | error e => simp [processVM, hc, hk, h2, h3, h4]
          | ok u4 =>
            cases h5 : createBackup env.exec with
            | error e => simp [processVM, hc, hk, h2, h3, h4, h5]
            | ok u5 => simp [processVM, hc, hk, h2, h3, h4, h5]

/-- C3 counterexample: in a run in which four phase-success transitions
occurred (all phases succeeded), only a single save happened, and it
carries the terminal Completed record — no save occurred at any
phase-success boundary. -/
theorem c3_save_per_phase_counterexample :
    (processVM cfg0 envAllOk "10.0.0.3" 1 2).saves.length = 1
    ∧ (processVM cfg0 envAllOk "10.0.0.3" 1 2).finalStatus.status = "Completed"
    ∧ (processVM cfg0 envAllOk "10.0.0.3" 1 2).saves =
        [((processVM cfg0 envAllOk "10.0.0.3" 1 2).finalStatus, true)] :=
  ⟨rfl, rfl, rfl⟩

/-- C4 (amended): only an invocation with no argument beyond the program
name is a usage error; an invocation carrying a configuration path but
zero host addresses is accepted — when the configuration loads and the
status directory is created the program runs to completion having
processed no hosts and exits zero. -/
theorem c4_zero_hosts (fe : FleetEnv) (args : List String) (cfg : Config)
    (h2 : args.length = 2) (hc : fe.loadConfig (args.getD 1 "") = Except.ok cfg)
    (hm : fe.mkdirStatusOk = true) :
    mainRun fe args = MainOutcome.ranToCompletion []
    ∧ exitCode (mainRun fe args) = 0
    ∧ (∀ args2 : List String, args2.length < 2 →
        mainRun fe args2 = MainOutcome.usage ∧ exitCode (mainRun fe args2) = 1) := by
  have hdrop : args.drop 2 = [] := by rw [← h2]; exact List.drop_length args
  have hlt : ¬ args.length < 2 := by omega
  have hmain : mainRun fe args = MainOutcome.ranToCompletion [] := by
    unfold mainRun
    rw [if_neg hlt, hc]
    simp [hm, hdrop]
  refine ⟨hmain, by rw [hmain]; rfl, ?_⟩
  intro args2 hargs2
  have husage : mainRun fe args2 = MainOutcome.usage := by
    unfold mainRun
    rw [if_pos hargs2]
  exact ⟨husage, by rw [husage]; rfl⟩

/-- C4 witness: a two-element argument list (program name and a config
path, zero hosts) runs to completion with zero hosts and exit code 0,
while an empty argument list is the usage error with exit code 1. -/
theorem c4_zero_hosts_witness :
    mainRun fleet0 ["./k8s-setup", "cfg.json"] = MainOutcome.ranToCompletion []
    ∧ exitCode (mainRun fleet0 ["./k8s-setup", "cfg.json"]) = 0
    ∧ (mainRun fleet0 [] = MainOutcome.usage ∧ exitCode (mainRun fleet0 []) = 1) :=
  ⟨(c4_zero_hosts fleet0 ["./k8s-setup", "cfg.json"] cfg0 rfl rfl rfl).1,
   (c4_zero_hosts fleet0 ["./k8s-setup", "cfg.json"] cfg0 rfl rfl rfl).2.1,
   (c4_zero_hosts fleet0 ["./k8s-setup", "cfg.json"] cfg0 rfl rfl rfl).2.2 [] (by decide)⟩

/-- C4 counterexample: the invocation with a configuration path and zero
host addresses is not treated as a usage error — it runs to completion
processing zero hosts and the process exits with status 0, not non-zero
as the claim requires. -/
theorem c4_zero_hosts_counterexample :
    mainRun fleet0 ["./k8s-setup", "config.json"] = MainOutcome.ranToCompletion []
    ∧ exitCode (mainRun fleet0 ["./k8s-setup", "config.json"]) = 0
    ∧ hostsProcessed (mainRun fleet0 ["./k8s-setup", "config.json"]) = 0 :=
  ⟨rfl, rfl, rfl⟩

/-- C5 (amended): the error returned by the status-save write is discarded
at every call site — the run's final record, console output, saved
snapshots, and connection state are identical whether the save write
succeeds or fails, and in particular no log line ever reports a save
failure; the in-memory record is untouched and the run continues. -/
theorem c5_save_outcome_ignored (cfg : Config) (c : Except String Unit)
    (ex : String → ExecResult) (wv : String → Option String) (b b2 : Bool)
    (ip : String) (t0 tEnd : Nat) :
    (processVM cfg ⟨c, ex, wv, b⟩ ip t0 tEnd).finalStatus =
      (processVM cfg ⟨c, ex, wv, b2⟩ ip t0 tEnd).finalStatus
    ∧ (processVM cfg ⟨c, ex, wv, b⟩ ip t0 tEnd).logs =
      (processVM cfg ⟨c, ex, wv, b2⟩ ip t0 tEnd).logs
    ∧ (processVM cfg ⟨c, ex, wv, b⟩ ip t0 tEnd).saves.map Prod.fst =
      (processVM cfg ⟨c, ex, wv, b2⟩ ip t0 tEnd).saves.map Prod.fst
    ∧ (processVM cfg ⟨c, ex, wv, b⟩ ip t0 tEnd).connected =
      (processVM cfg ⟨c, ex, wv, b2⟩ ip t0 tEnd).connected := by
  cases hc : c with
  | error e => simp [processVM, hc]
  | ok u =>
    cases hk : checkSystemRequirements ex with
    | error e => simp [processVM, hc, hk]
    | ok u1 =>
      cases h2 : setupKubernetes ex cfg with
      | error e => simp [processVM, hc, hk, h2]
      | ok u2 =>
        cases h3 : setupMonitoring ex wv cfg with
        | error e => simp [processVM, hc, hk, h2, h3]
        | ok u3 =>
          cases h4 : verifySetup ex with
          | error e => simp [processVM, hc, hk, h2, h3, h4]
          | ok u4 =>
            cases h5 : createBackup ex with
            | error e => simp [processVM, hc, hk, h2, h3, h4, h5]
            | ok u5 => simp [processVM, hc, hk, h2, h3, h4, h5]

/-- C5 counterexample: a run whose single status-save write fails emits
exactly the same console lines as the run whose save succeeds — the
listed eleven lines, none of which mentions the failed save — so the
save failure is silently discarded, not reported or logged. -/
theorem c5_save_failure_silent_counterexample :
    (processVM cfg0 envAllOkSaveFail "10.0.0.1" 1 2).saves =
      [((processVM cfg0 envAllOkSaveFail "10.0.0.1" 1 2).finalStatus, false)]
    ∧ (processVM cfg0 envAllOkSaveFail "10.0.0.1" 1 2).logs =
      (processVM cfg0 envAllOk "10.0.0.1" 1 2).logs
    ∧ (processVM cfg0 envAllOkSaveFail "10.0.0.1" 1 2).logs =
      [ "Starting setup for VM 10.0.0.1",
        "System check output for uname -a:\n",
        "System check output for free -h:\n",
        "System check output for df -h:\n",
        "System check output for nproc:\n",
        "System check output for cat /etc/os-release:\n",
        "Verification output for kubectl get nodes:\n",
        "Verification output for kubectl get pods -A:\n",
        "Verification output for kubectl get services -A:\n",
        "Verification output for kubectl get deployments -A:\n",
        "Setup completed successfully for VM 10.0.0.1" ] :=
  ⟨rfl, rfl, rfl⟩

/-- C6: a host's final record has state Completed exactly when the
connection and the requirement-check, cluster-install,
monitoring-install, and verification phases all succeeded; on a backup
failure after those successes the state stays Completed, the error field
stays empty, the backup name is omitted from completedSteps, and a
warning line is logged. -/
theorem c6_completed_iff (cfg : Config) (env : HostEnv) (ip : String) (t0 tEnd : Nat) :
    ((processVM cfg env ip t0 tEnd).finalStatus.status = "Completed" ↔
      (env.connect = Except.ok () ∧ checkSystemRequirements env.exec = Except.ok ()
       ∧ setupKubernetes env.exec cfg = Except.ok ()
       ∧ setupMonitoring env.exec env.writeValues cfg = Except.ok ()
       ∧ verifySetup env.exec = Except.ok ()))
    ∧ (∀ e, env.connect = Except.ok () → checkSystemRequirements env.exec = Except.ok () →
        setupKubernetes env.exec cfg = Except.ok () →
        setupMonitoring env.exec env.writeValues cfg = Except.ok () →
        verifySetup env.exec = Except.ok () → createBackup env.exec = Except.error e →
        (processVM cfg env ip t0 tEnd).finalStatus.status = "Completed"
        ∧ (processVM cfg env ip t0 tEnd).finalStatus.error = ""
        ∧ (processVM cfg env ip t0 tEnd).finalStatus.completedSteps =
            ["kubernetes", "monitoring", "verification"]
        ∧ ("Warning: Backup creation failed: " ++ e) ∈ (processVM cfg env ip t0 tEnd).logs) := by
  constructor
  · constructor
    · intro h
      cases hc : env.connect with
      | error e => simp [processVM, initialStatus, hc] at h
      | ok u =>
        cases u
        cases hk : checkSystemRequirements env.exec with
        | error e => simp [processVM, initialStatus, hc, hk] at h
        | ok u1 =>
          cases u1
          cases h2 : setupKubernetes env.exec cfg with
          | error e => simp [processVM, initialStatus, hc, hk, h2] at h
          | ok u2 =>
            cases u2
            cases h3 : setupMonitoring env.exec env.writeValues cfg with
            | error e => simp [processVM, initialStatus, hc, hk, h2, h3] at h
            | ok u3 =>
              cases u3
              cases h4 : verifySetup env.exec with
              | error e => simp [processVM, initialStatus, hc, hk, h2, h3, h4] at h
              | ok u4 => exact ⟨rfl, rfl, rfl, rfl, rfl⟩
    · rintro ⟨hc, hk, h2, h3, h4⟩
      cases h5 : createBackup env.exec with
      | error e => simp [processVM, initialStatus, hc, hk, h2, h3, h4, h5]
      | ok u5 => simp [processVM, initialStatus, hc, hk, h2, h3, h4, h5]
  · intro e hc hk h2 h3 h4 hb
    refine ⟨?_, ?_, ?_, ?_⟩ <;> simp [processVM, initialStatus, hc, hk, h2, h3, h4, hb]

/-- C6 witness: on the environment where everything succeeds except the
backup phase, the final record is Completed with empty error, the backup
name is absent from completedSteps, and the warning line is present in
the log output. -/
theorem c6_completed_iff_witness :
    (processVM cfg0 envBackupFail "10.0.0.1" 1 2).finalStatus.status = "Completed"
    ∧ (processVM cfg0 envBackupFail "10.0.0.1" 1 2).finalStatus.error = ""
    ∧ (processVM cfg0 envBackupFail "10.0.0.1" 1 2).finalStatus.completedSteps =
        ["kubernetes", "monitoring", "verification"]
    ∧ ("Warning: Backup creation failed: " ++ "backup failed: command failed: exit status 1")
        ∈ (processVM cfg0 envBackupFail "10.0.0.1" 1 2).logs :=
  (c6_completed_iff cfg0 envBackupFail "10.0.0.1" 1 2).2
    "backup failed: command failed: exit status 1" rfl rfl rfl rfl rfl rfl

/-- C7: a host whose SSH connection fails gets a persisted final record
with state Failed, empty completedSteps, an error carrying the connection
failure text, and currentStep still at the pre-pipeline marker
Initializing; no phase runs (the only log line is the start line and no
connection is opened), and the fleet loop still processes every host of
the argument list. -/
theorem c7_connection_failure (cfg : Config) (env : HostEnv) (ip : String) (t0 tEnd : Nat)
    (e : String) (hc : env.connect = Except.error e) :
    ((processVM cfg env ip t0 tEnd).finalStatus.status = "Failed"
     ∧ (processVM cfg env ip t0 tEnd).finalStatus.completedSteps = []
     ∧ (processVM cfg env ip t0 tEnd).finalStatus.error = "SSH connection failed: " ++ e
     ∧ (processVM cfg env ip t0 tEnd).finalStatus.currentStep = "Initializing"
     ∧ (processVM cfg env ip t0 tEnd).saves =
         [((processVM cfg env ip t0 tEnd).finalStatus, env.saveOk)]
     ∧ (processVM cfg env ip t0 tEnd).logs = ["Starting setup for VM " ++ ip]
     ∧ (processVM cfg env ip t0 tEnd).connected = false)
    ∧ (∀ (fe : FleetEnv) (args : List String) (cfg2 : Config),
        fe.loadConfig (args.getD 1 "") = Except.ok cfg2 → fe.mkdirStatusOk = true →
        2 ≤ args.length → hostsProcessed (mainRun fe args) = (args.drop 2).length) := by
  constructor
  · refine ⟨?_, ?_, ?_, ?_, ?_, ?_, ?_⟩ <;> simp [processVM, initialStatus, hc]
  · intro fe args cfg2 hcl hm hlen
    have hlt : ¬ args.length < 2 := by omega
    unfold mainRun
    rw [if_neg hlt, hcl]
    simp [hm, hostsProcessed]

/-- C7 witness: the concrete connection-failure environment yields the
Failed pre-pipeline record, and a fleet invocation with two host
arguments processes both hosts. -/
theorem c7_connection_failure_witness :
    (processVM cfg0 envConnFail "10.0.0.2" 5 9).finalStatus.status = "Failed"
    ∧ (processVM cfg0 envConnFail "10.0.0.2" 5 9).finalStatus.completedSteps = []
    ∧ (processVM cfg0 envConnFail "10.0.0.2" 5 9).finalStatus.currentStep = "Initializing"
    ∧ hostsProcessed (mainRun fleet0 ["./k8s-setup", "config.json", "10.0.0.1", "10.0.0.2"]) = 2 := by
  have h := c7_connection_failure cfg0 envConnFail "10.0.0.2" 5 9 "dial tcp: connection refused" rfl
  exact ⟨h.1.1, h.1.2.1, h.1.2.2.2.1,
    (h.2 fleet0 ["./k8s-setup", "config.json", "10.0.0.1", "10.0.0.2"] cfg0 rfl rfl (by decide)).trans rfl⟩

/-- C8: with two hosts that both connect successfully, the first host's
SSH connection is still open when the second host's run begins, and both
connections are still open after both runs end — the per-host Close is
deferred inside main's loop, so no connection is released until main
itself returns, contradicting release-at-end-of-host-run. -/
theorem c8_connection_left_open :
    openConnections fleet0 cfg0 ["10.0.0.1", "10.0.0.2"] 1 = ["10.0.0.1"]
    ∧ openConnections fleet0 cfg0 ["10.0.0.1", "10.0.0.2"] 2 = ["10.0.0.1", "10.0.0.2"] :=
  ⟨rfl, rfl⟩

/-- C9: with an empty KeyFile, connectSSH dials with password
authentication only; with a non-empty KeyFile it dials with exactly the
parsed public key (the password method is replaced), and a key-file read
or parse failure returns an error before any dial is attempted. -/
theorem c9_auth_selection (env : SSHEnv) (config : VMConfig) :
    (config.keyFile = "" →
      connectSSH env config = ConnectResult.dialed (config.ip ++ ":22")
        { user := config.username, auth := [AuthMethod.password config.password],
          timeout := config.timeout } env.dialResult)
    ∧ (config.keyFile ≠ "" →
        (∀ key signer, env.readFile config.keyFile = Except.ok key →
          env.parsePrivateKey key = Except.ok signer →
          connectSSH env config = ConnectResult.dialed (config.ip ++ ":22")
            { user := config.username, auth := [AuthMethod.publicKeys signer],
              timeout := config.timeout } env.dialResult)
        ∧ (∀ e, env.readFile config.keyFile = Except.error e →
            connectSSH env config = ConnectResult.noDial ("failed to read key file: " ++ e))
        ∧ (∀ key e, env.readFile config.keyFile = Except.ok key →
            env.parsePrivateKey key = Except.error e →
            connectSSH env config = ConnectResult.noDial ("failed to parse private key: " ++ e))) := by
  constructor
  · intro h
    simp [connectSSH, h]
  · intro h
    refine ⟨?_, ?_, ?_⟩
    · intro key signer hr hp
      simp [connectSSH, h, hr, hp]
    · intro e hr
      simp [connectSSH, h, hr]
    · intro key e hr hp
      simp [connectSSH, h, hr, hp]

/-- Oracles for a successful key-based connection. -/
def sshEnv0 : SSHEnv :=
  { readFile := fun _ => Except.ok "PEM", parsePrivateKey := fun _ => Except.ok "SIGNER",
    dialResult := Except.ok () }

/-- VM parameters with a key file configured. -/
def vmKey : VMConfig :=
  { ip := "10.0.0.1", username := "root", password := "pw",
    keyFile := "/root/.ssh/id_rsa", timeout := 30 }

/-- C9 witness: with a key file configured and readable, the dial happens
with exactly the public-key method — the password method is gone. -/
theorem c9_auth_selection_witness :
    connectSSH sshEnv0 vmKey = ConnectResult.dialed "10.0.0.1:22"
      { user := "root", auth := [AuthMethod.publicKeys "SIGNER"], timeout := 30 }
      (Except.ok ()) :=
  ((c9_auth_selection sshEnv0 vmKey).2 (by decide)).1 "PEM" "SIGNER" rfl rfl

/-- C10: when the connection succeeds and the requirement check fails,
the final record differs from the freshly initialized record only in its
status and error fields — currentStep is still Initializing, endTime is
still zero, completedSteps is still empty — and this record is the one
persisted. -/
theorem c10_reqcheck_frame (cfg : Config) (env : HostEnv) (ip : String) (t0 tEnd : Nat)
    (e : String) (hc : env.connect = Except.ok ())
    (hr : checkSystemRequirements env.exec = Except.error e) :
    (processVM cfg env ip t0 tEnd).finalStatus =
      { vmIP := ip, startTime := t0, endTime := 0, currentStep := "Initializing",
        status := "Failed", error := "System requirements check failed: " ++ e,
        completedSteps := [] }
    ∧ (processVM cfg env ip t0 tEnd).saves =
        [((processVM cfg env ip t0 tEnd).finalStatus, env.saveOk)] := by
  refine ⟨?_, ?_⟩ <;> simp [processVM, initialStatus, hc, hr]

/-- C10 witness: the concrete requirement-check failure leaves every
field but status and error at its initial value. -/
theorem c10_reqcheck_frame_witness :
    (processVM cfg0 envChkFail "10.0.0.3" 7 9).finalStatus =
      { vmIP := "10.0.0.3", startTime := 7, endTime := 0, currentStep := "Initializing",
        status := "Failed",
        error := "System requirements check failed: system check failed: command failed: exit status 127",
        completedSteps := [] } :=
  (c10_reqcheck_frame cfg0 envChkFail "10.0.0.3" 7 9
    "system check failed: command failed: exit status 127" rfl rfl).1
